import Mathlib

/-!
Verification of the Arogya AI RAG pipeline (chunker, indexer, retriever,
prompt composer, generator adapter, chat endpoint) as a shallow embedding
of `ai_core/rag_engine.py`, `routes/report_routes.py`, `models/schemas.py`
and `main.py`. Report text is modelled as `List Char`, the vector store as
a list of stored chunks, the external similarity engine as an abstract
ranking function, and the external LLM call as a fallible function
`String → Except String String`.
-/

namespace Arogya

/-! ## Data model (models/schemas.py, routes/report_routes.py) -/

/-- The metadata map attached to every chunk of a report, built in
`report_routes.create_report` (lines 40-47). -/
structure Metadata where
  report_id : String
  owner_email : String
  title : String
  report_type : String
  upload_date : String
deriving DecidableEq, Repr

/-- One entry of the Chroma collection: an id, a document (chunk text) and
its metadata map. -/
structure StoredChunk where
  id : String
  document : String
  metadata : Metadata
deriving DecidableEq, Repr

/-- The `medical_reports` Chroma collection, as the list of its entries. -/
abbrev VectorStore := List StoredChunk

/-- `models/schemas.py` `User` (fields of `UserBase`; the optional `id` is
irrelevant to the claims). -/
structure User where
  email : String
  first_name : String
  last_name : String
  user_type : String
deriving DecidableEq, Repr

/-- `models/schemas.py` `ChatMessage`: query, response, owner, timestamp
(datetimes modelled as `Nat`). -/
structure ChatMessage where
  user_query : String
  ai_response : String
  owner_email : String
  timestamp : Nat
deriving DecidableEq, Repr

/-! ## Chunker (ai_core/rag_engine.py, index_report lines 45-47)

    chunk_size = 500
    chunks = [text_content[i:i+chunk_size] for i in range(0, len(text_content), chunk_size)]
-/

def chunk_size : Nat := 500

/-- The list-comprehension slicing: take the first 500 characters, recurse on
the rest; Python's `range(0, len, 500)` visits exactly these offsets. -/
def chunkText : List Char → List (List Char)
  | [] => []
  | c :: rest => List.take chunk_size (c :: rest) :: chunkText (List.drop chunk_size (c :: rest))
termination_by l => l.length
decreasing_by simp [chunk_size]; omega

theorem chunkText_nil : chunkText [] = [] := by
  rw [chunkText]

theorem chunkText_join : ∀ t : List Char, (chunkText t).flatten = t
  | [] => by rw [chunkText]; rfl
  | c :: rest => by
    rw [chunkText, List.flatten_cons, chunkText_join (List.drop chunk_size (c :: rest))]
    exact List.take_append_drop _ _
termination_by t => t.length
decreasing_by simp [chunk_size]; omega

theorem chunkText_length : ∀ t : List Char,
    (chunkText t).length = (t.length + (chunk_size - 1)) / chunk_size
  | [] => by rw [chunkText]; rfl
  | c :: rest => by
    rw [chunkText, List.length_cons, chunkText_length (List.drop chunk_size (c :: rest))]
    simp only [List.length_drop, List.length_cons, chunk_size]
    omega
termination_by t => t.length
decreasing_by simp [chunk_size]; omega

theorem chunkText_chunk_le : ∀ t : List Char, ∀ ch ∈ chunkText t, ch.length ≤ chunk_size
  | [] => by rw [chunkText]; intro ch h; exact absurd h (List.not_mem_nil ch)
  | c :: rest => by
    rw [chunkText]
    intro ch h
    rcases List.mem_cons.mp h with h1 | h2
    · subst h1
      rw [List.length_take]
      exact min_le_left _ _
    · exact chunkText_chunk_le (List.drop chunk_size (c :: rest)) ch h2
termination_by t => t.length
decreasing_by simp [chunk_size]; omega

/-! ## Retriever (ai_core/rag_engine.py lines 66-70 and 110-114)

Both query sites call `collection.query(query_texts=[...], n_results=k,
where={"owner_email": user_email})`. The engine's similarity ranking is
abstracted as a `Ranker`; that the engine honors the exact-match
where-filter is modelled by ranking only the candidates passing the
filter, and `HonestRanker` says ranking selects among its candidates
rather than fabricating entries. -/

abbrev Ranker := String → List StoredChunk → List StoredChunk

/-- The vector engine only reorders or drops candidates: every chunk it
ranks comes from the candidate list it was given. -/
def HonestRanker (rank : Ranker) : Prop :=
  ∀ q l c, c ∈ rank q l → c ∈ l

/-- The `where={"owner_email": user_email}` exact-match predicate. -/
def whereOwner (user_email : String) (c : StoredChunk) : Bool :=
  c.metadata.owner_email == user_email

/-- `collection.query` with a single query text: rank the chunks passing the
owner filter, keep at most `n_results`. -/
def queryChunks (rank : Ranker) (store : VectorStore)
    (query_text user_email : String) (n_results : Nat) : List StoredChunk :=
  List.take n_results (rank query_text (List.filter (whereOwner user_email) store))

/-- The `results['documents']` field: one inner list of documents per query
text, and both call sites pass exactly one query text. -/
def queryDocuments (rank : Ranker) (store : VectorStore)
    (query_text user_email : String) (n_results : Nat) : List (List String) :=
  [List.map StoredChunk.document (queryChunks rank store query_text user_email n_results)]

/-! ## Prompt composer and generator adapter (ai_core/rag_engine.py lines 72-141) -/

/-- Lines 72-74 (and 116-118): `retrieved_context` is empty unless the outer
documents list and its first inner list are both non-empty, in which case it
is the inner list joined with a double newline. -/
def extractContext : List (List String) → String
  | [] => ""
  | d0 :: _ => if d0.isEmpty then "" else String.intercalate "\n\n" d0

/-- The external LLM call `GenerativeModel(MODEL_NAME).generate_content(p).text`:
it returns text or raises (modelled as `Except.error`). -/
abbrev Generator := String → Except String String

def GENERAL_INSTRUCTION : String :=
  "You are ArogyaAI, a helpful, GENERAL medical assistant. The user has no relevant medical records. Answer the user's query based on general public knowledge. Always add a strong medical disclaimer."

def ANALYSIS_INSTRUCTION : String :=
  "You are ArogyaAI, a specialized medical AI assistant. ANALYZE the retrieved patient reports and history to answer the user's question. FOCUS on extracting key findings, diagnoses, and medical actions. If the query relates to symptoms or treatment, suggest only *GENERAL* (non-prescription, non-specific dosage) recommendations and common OTC medicines related to the reported conditions. Keep answers concise, actionable, and informative. Always conclude with a mandatory medical disclaimer."

def NO_RECORDS_CONTEXT : String := "No specific medical records found."

def RAG_ERROR_MESSAGE : String :=
  "I'm sorry, I encountered an error analyzing your records. Please ensure your GEMINI_API_KEY is correct and try again."

/-- Lines 77-92: the system instruction picked by the empty-context test. -/
def ragSystemInstruction (retrieved_context : String) : String :=
  if retrieved_context = "" then GENERAL_INSTRUCTION else ANALYSIS_INSTRUCTION

/-- Lines 83 and 93: the context block picked by the empty-context test. -/
def ragContextBlock (retrieved_context : String) : String :=
  if retrieved_context = "" then NO_RECORDS_CONTEXT
  else "--- RETRIEVED PATIENT MEDICAL CONTEXT ---\n" ++ retrieved_context ++ "\n---------------------------------"

/-- Line 95: `full_prompt = f"{system_instruction}\n\n{context_block}\n\nUser Question: {query}"`. -/
def rag_full_prompt (retrieved_context query : String) : String :=
  ragSystemInstruction retrieved_context ++ "\n\n" ++ ragContextBlock retrieved_context
    ++ "\n\nUser Question: " ++ query

/-- `get_rag_response` (lines 60-105): retrieve with k=3 under the caller's
owner filter, compose the prompt, call the LLM; the surrounding
`try/except` turns any raised failure into the fixed apology string, so the
function always returns plain text (its Lean type is `String`, not
`Except`). -/
def get_rag_response (gen : Generator) (rank : Ranker) (store : VectorStore)
    (query user_email : String) : String :=
  let docs := queryDocuments rank store query user_email 3
  let retrieved_context := extractContext docs
  match gen (rag_full_prompt retrieved_context query) with
  | Except.ok text => text
  | Except.error _ => RAG_ERROR_MESSAGE

def SUMMARY_QUERY_TEXT : String :=
  "general health history diagnosis treatment lab results"

def NO_REPORTS_MESSAGE : String :=
  "You haven't uploaded any medical reports yet. Please upload a few reports before requesting a summary."

def SUMMARY_ERROR_MESSAGE : String :=
  "I am unable to generate the comprehensive summary at this time due to a processing error."

/-- Lines 123-133: the summarize prompt around the retrieved context. -/
def summary_prompt (retrieved_context : String) : String :=
  "You are ArogyaAI, the patient's personal medical record summarization assistant. Analyze the following medical record excerpts and provide a concise, professional summary of the patient's current health status. Structure your response into 3 sections:\n\n1. **Key Diagnoses/Findings:** List the most important health concerns or lab results.\n2. **Recent Actions:** Note any recent prescriptions, treatments, or recommendations.\n3. **General Status:** Provide a single concluding sentence on the overall health state.\n\n--- MEDICAL RECORDS CONTEXT ---\n"
    ++ retrieved_context ++ "\n---------------------------------"

/-- `get_summary_response` (lines 108-141): retrieve with the fixed generic
query and k=10 under the caller's owner filter; with empty context return
the fixed no-reports message before any model is constructed; otherwise
call the LLM, converting any raised failure into the fixed apology. -/
def get_summary_response (gen : Generator) (rank : Ranker) (store : VectorStore)
    (user_email : String) : String :=
  let docs := queryDocuments rank store SUMMARY_QUERY_TEXT user_email 10
  let retrieved_context := extractContext docs
  if retrieved_context = "" then NO_REPORTS_MESSAGE
  else
    match gen (summary_prompt retrieved_context) with
    | Except.ok text => text
    | Except.error _ => SUMMARY_ERROR_MESSAGE

/-! ## Indexer (ai_core/rag_engine.py lines 38-57, routes/report_routes.py lines 40-47) -/

/-- The arguments of the single `collection.upsert(documents=..., ids=...,
metadatas=...)` batch call. -/
structure UpsertCall where
  documents : List String
  ids : List String
  metadatas : List Metadata
deriving DecidableEq, Repr

def chunkStrings (text_content : List Char) : List String :=
  List.map (fun cs => String.mk cs) (chunkText text_content)

/-- `index_report` up to the vector-store call: `if not text_content: return`
(no upsert), otherwise one batch with ids `f"{report_id}_chunk_{i}"` and the
same metadata map repeated for every chunk. -/
def index_report_upsert (report_id : String) (text_content : List Char)
    (metadata : Metadata) : Option UpsertCall :=
  if text_content.isEmpty then none
  else
    let chunks := chunkStrings text_content
    some { documents := chunks
         , ids := List.map (fun i => report_id ++ "_chunk_" ++ toString i) (List.range chunks.length)
         , metadatas := List.map (fun _ => metadata) chunks }

/-- Chroma upsert of one entry: overwrite the entries sharing the id, else append. -/
def upsertOne (store : VectorStore) (c : StoredChunk) : VectorStore :=
  if store.any (fun s => s.id == c.id) then
    store.map (fun s => if s.id == c.id then c else s)
  else store ++ [c]

/-- The entries a batch call writes, id/document/metadata zipped positionally. -/
def batchEntries (call : UpsertCall) : List StoredChunk :=
  List.map (fun p => { id := p.1, document := p.2.1, metadata := p.2.2 })
    (List.zip call.ids (List.zip call.documents call.metadatas))

def applyUpsert (store : VectorStore) (call : UpsertCall) : VectorStore :=
  List.foldl upsertOne store (batchEntries call)

/-- `index_report`'s effect on the collection. -/
def index_report (report_id : String) (text_content : List Char)
    (metadata : Metadata) (store : VectorStore) : VectorStore :=
  match index_report_upsert report_id text_content metadata with
  | none => store
  | some call => applyUpsert store call

/-- `report_routes.create_report` lines 40-47: the metadata map handed to
`index_report`, whose `owner_email` is the authenticated submitter's email. -/
def create_report_metadata (report_id submitter_email title report_type upload_date : String) :
    Metadata :=
  { report_id := report_id, owner_email := submitter_email, title := title,
    report_type := report_type, upload_date := upload_date }

/-! ## Chat endpoint (main.py lines 44-88) -/

/-- What `chat_with_rag` renders: the early-return red rejection fragment
(line 58), or the normal two-bubble exchange fragment (lines 74-84) showing
the saved query text and the AI response. -/
inductive ChatResult where
  | rejection : ChatResult
  | exchange (user_bubble ai_bubble : String) : ChatResult
deriving DecidableEq, Repr

/-- The rendered response together with the `ChatMessage` inserted into
`chat_messages_collection` (none when the handler returns early). -/
structure ChatOutcome where
  result : ChatResult
  saved : Option ChatMessage
deriving DecidableEq, Repr

def SUMMARY_SAVED_QUERY : String := "Request for Medical Record Summary"

/-- Constructing `ChatMessage` without passing `timestamp`, as main.py lines
66-70 do. Pydantic evaluates a plain (non-factory) field default once, when
the class body executes at module import: `models/schemas.py` line 42
declares `timestamp: datetime = datetime.now(timezone.utc)`, so every such
message carries the module-import-time value `class_def_time`, not the time
of its own construction. -/
def mkChatMessage (class_def_time : Nat) (owner_email user_query ai_response : String) :
    ChatMessage :=
  { owner_email := owner_email, user_query := user_query,
    ai_response := ai_response, timestamp := class_def_time }

/-- `main.chat_with_rag` (lines 44-84): dispatch on the `action` form field.
`summarize` is gated to the patient role and saves a fixed label as the
query; `ask` saves the verbatim question; any other action skips both
branches, leaving `ai_response_text = ""`, and still saves and renders. -/
def chat_with_rag (gen : Generator) (rank : Ranker) (store : VectorStore)
    (class_def_time : Nat) (query action : String) (current_user : User) : ChatOutcome :=
  if action = "summarize" then
    if current_user.user_type ≠ "patient" then
      { result := ChatResult.rejection, saved := none }
    else
      let ai_response_text := get_summary_response gen rank store current_user.email
      { result := ChatResult.exchange SUMMARY_SAVED_QUERY ai_response_text,
        saved := some (mkChatMessage class_def_time current_user.email
          SUMMARY_SAVED_QUERY ai_response_text) }
  else if action = "ask" then
    let ai_response_text := get_rag_response gen rank store query current_user.email
    { result := ChatResult.exchange query ai_response_text,
      saved := some (mkChatMessage class_def_time current_user.email query ai_response_text) }
  else
    { result := ChatResult.exchange query "",
      saved := some (mkChatMessage class_def_time current_user.email query "") }

/-! ## Sample values used by the witnesses -/

def idRanker : Ranker := fun _ l => l

def sampleMetadataA : Metadata :=
  create_report_metadata "r1" "a@x.com" "Blood Test" "Blood Test" "2024-01-01T00:00:00+00:00"

def sampleChunkA : StoredChunk :=
  { id := "r1_chunk_0", document := "hemoglobin normal", metadata := sampleMetadataA }

def samplePatient : User :=
  { email := "a@x.com", first_name := "Asha", last_name := "Rao", user_type := "patient" }

def sampleDoctor : User :=
  { email := "d@x.com", first_name := "Dev", last_name := "Rao", user_type := "doctor" }

def okGen : Generator := fun _ => Except.ok "generated answer"

def failGen : Generator := fun _ => Except.error "quota exceeded"

/-! ## Helper lemmas -/

theorem mem_upsertOne {store : VectorStore} {k c : StoredChunk}
    (h : c ∈ upsertOne store k) : c ∈ store ∨ c = k := by
  unfold upsertOne at h
  split at h
  · rcases List.mem_map.mp h with ⟨s, hs, heq⟩
    split at heq
    · exact Or.inr heq.symm
    · exact Or.inl (heq ▸ hs)
  · rcases List.mem_append.mp h with h1 | h1
    · exact Or.inl h1
    · exact Or.inr (List.mem_singleton.mp h1)

theorem mem_foldl_upsert : ∀ (ks : List StoredChunk) (store : VectorStore) (c : StoredChunk),
    c ∈ List.foldl upsertOne store ks → c ∈ store ∨ c ∈ ks
  | [], _, _, h => Or.inl h
  | k :: rest, store, c, h => by
    rcases mem_foldl_upsert rest (upsertOne store k) c h with h1 | h1
    · rcases mem_upsertOne h1 with h2 | h2
      · exact Or.inl h2
      · exact Or.inr (by rw [h2]; exact List.mem_cons_self k rest)
    · exact Or.inr (List.mem_cons_of_mem k h1)

theorem metadata_mem_of_mem_batchEntries {call : UpsertCall} {c : StoredChunk}
    (h : c ∈ batchEntries call) : c.metadata ∈ call.metadatas := by
  unfold batchEntries at h
  rcases List.mem_map.mp h with ⟨p, hp, heq⟩
  obtain ⟨a, d, m⟩ := p
  have h1 : (d, m) ∈ List.zip call.documents call.metadatas := (List.of_mem_zip hp).2
  have h2 : m ∈ call.metadatas := (List.of_mem_zip h1).2
  subst heq
  exact h2

theorem mem_index_report {report_id : String} {text_content : List Char} {md : Metadata}
    {store : VectorStore} {c : StoredChunk}
    (h : c ∈ index_report report_id text_content md store) :
    c ∈ store ∨ c.metadata = md := by
  unfold index_report at h
  cases hcall : index_report_upsert report_id text_content md with
  | none => rw [hcall] at h; exact Or.inl h
  | some call =>
    rw [hcall] at h
    unfold applyUpsert at h
    rcases mem_foldl_upsert _ _ _ h with h1 | h1
    · exact Or.inl h1
    · right
      have h2 := metadata_mem_of_mem_batchEntries h1
      unfold index_report_upsert at hcall
      split at hcall
      · exact absurd hcall (by simp)
      · injection hcall with hc
        rw [← hc] at h2
        rcases List.mem_map.mp h2 with ⟨x, _, hxe⟩
        exact hxe.symm

/-! ## The claims -/

/-- C1: for any query text and any result count k, every chunk returned by
the owner-filtered vector-store query (the form both `get_rag_response` and
`get_summary_response` issue) carries `owner_email` equal to the requesting
caller's email — assuming only that the engine selects among the candidates
passing the exact-match where-filter (`HonestRanker`); and every chunk
`index_report` adds to the store under the metadata map that
`create_report` builds carries `owner_email` equal to the report
submitter's email. Together: cross-owner chunk leakage is impossible by
construction. -/
theorem owner_isolation (rank : Ranker) (hrank : HonestRanker rank)
    (store : VectorStore) (user_email query_text : String) (k : Nat)
    (report_id : String) (text_content : List Char)
    (submitter_email title report_type upload_date : String) :
    (∀ c ∈ queryChunks rank store query_text user_email k,
        c.metadata.owner_email = user_email) ∧
    (∀ c ∈ index_report report_id text_content
        (create_report_metadata report_id submitter_email title report_type upload_date) store,
        c ∈ store ∨ c.metadata.owner_email = submitter_email) := by
  constructor
  · intro c hc
    have h1 : c ∈ rank query_text (List.filter (whereOwner user_email) store) :=
      List.mem_of_mem_take hc
    have h2 : c ∈ List.filter (whereOwner user_email) store := hrank _ _ _ h1
    have h3 := List.of_mem_filter h2
    unfold whereOwner at h3
    exact eq_of_beq h3
  · intro c hc
    rcases mem_index_report hc with h1 | h1
    · exact Or.inl h1
    · exact Or.inr (by rw [h1]; rfl)

/-- Witness for C1 at a concrete ranker, store, caller and report. -/
theorem owner_isolation_witness :
    (∀ c ∈ queryChunks idRanker [sampleChunkA] "what do my results show" "a@x.com" 3,
        c.metadata.owner_email = "a@x.com") ∧
    (∀ c ∈ index_report "r2" (String.toList "patient has mild anemia")
        (create_report_metadata "r2" "a@x.com" "CBC" "Blood Test" "2024-02-02T00:00:00+00:00")
        [sampleChunkA],
        c ∈ [sampleChunkA] ∨ c.metadata.owner_email = "a@x.com") :=
  owner_isolation idRanker (fun _ _ _ h => h) [sampleChunkA] "a@x.com"
    "what do my results show" 3 "r2" (String.toList "patient has mild anemia")
    "a@x.com" "CBC" "Blood Test" "2024-02-02T00:00:00+00:00"

/-- C2: for every text the chunker yields exactly ceil(N/500) chunks, each
of at most 500 characters, whose in-order concatenation equals the input
text exactly (hence non-overlapping, covering, in original order), and the
empty text yields the empty sequence. -/
theorem chunker_spec (t : List Char) :
    (chunkText t).length = (t.length + 500 - 1) / 500 ∧
    (∀ ch ∈ chunkText t, ch.length ≤ 500) ∧
    (chunkText t).flatten = t ∧
    chunkText [] = [] := by
  refine ⟨?_, ?_, chunkText_join t, chunkText_nil⟩
  · have h := chunkText_length t
    simp only [chunk_size] at h
    omega
  · intro ch h
    have h2 := chunkText_chunk_le t ch h
    simpa [chunk_size] using h2

/-- C3: when the external text-generation call raises, each response
function catches the failure and returns its fixed user-facing apology
string instead of propagating the fault; both functions return plain
`String` (never a raised error) by construction. The summarize conjunct is
conditional on a non-empty context because with an empty context the
generator is never called at all. -/
theorem generation_failure_returns_apology (gen : Generator) (rank : Ranker)
    (store : VectorStore) (query user_email e : String)
    (hfail : ∀ p, gen p = Except.error e) :
    get_rag_response gen rank store query user_email = RAG_ERROR_MESSAGE ∧
    (extractContext (queryDocuments rank store SUMMARY_QUERY_TEXT user_email 10) ≠ "" →
      get_summary_response gen rank store user_email = SUMMARY_ERROR_MESSAGE) := by
  constructor
  · simp only [get_rag_response, hfail]
  · intro hctx
    simp only [get_summary_response, if_neg hctx, hfail]

/-- Witness for C3 at an always-failing generator and a store holding one
chunk of the caller's. -/
theorem generation_failure_returns_apology_witness :
    get_rag_response failGen idRanker [sampleChunkA] "what do my results show" "a@x.com"
        = RAG_ERROR_MESSAGE ∧
    get_summary_response failGen idRanker [sampleChunkA] "a@x.com" = SUMMARY_ERROR_MESSAGE := by
  have h := generation_failure_returns_apology failGen idRanker [sampleChunkA]
    "what do my results show" "a@x.com" "quota exceeded" (fun _ => rfl)
  exact ⟨h.1, h.2 (by decide)⟩

/-- C4: when the retrieval result set is empty — no documents list, or an
empty first document list — the ask-mode composer takes the no-context
branch: generic instruction, the fixed no-records context block, and a full
prompt equal to that fixed text plus the user question alone; since the
retrieved chunk list is empty, the prompt contains no chunk text. -/
theorem empty_retrieval_no_context_branch (docs : List (List String)) (query : String)
    (h : docs = [] ∨ docs.head? = some []) :
    ragSystemInstruction (extractContext docs) = GENERAL_INSTRUCTION ∧
    ragContextBlock (extractContext docs) = NO_RECORDS_CONTEXT ∧
    rag_full_prompt (extractContext docs) query =
      GENERAL_INSTRUCTION ++ "\n\n" ++ NO_RECORDS_CONTEXT ++ "\n\nUser Question: " ++ query := by
  have hctx : extractContext docs = "" := by
    rcases h with h | h
    · rw [h]
      rfl
    · cases docs with
      | nil => rfl
      | cons d0 rest =>
        simp only [List.head?_cons, Option.some.injEq] at h
        rw [h]
        rfl
  rw [hctx]
  exact ⟨rfl, rfl, rfl⟩

/-- Witness for C4 at the empty documents list. -/
theorem empty_retrieval_no_context_branch_witness :
    ragSystemInstruction (extractContext []) = GENERAL_INSTRUCTION ∧
    ragContextBlock (extractContext []) = NO_RECORDS_CONTEXT ∧
    rag_full_prompt (extractContext []) "is my sugar high" =
      GENERAL_INSTRUCTION ++ "\n\n" ++ NO_RECORDS_CONTEXT ++ "\n\nUser Question: "
        ++ "is my sugar high" :=
  empty_retrieval_no_context_branch [] "is my sugar high" (Or.inl rfl)

/-- C5: with empty text the indexer is a silent no-op (no upsert call, the
store is unchanged); with non-empty text it issues one batch upsert whose
documents are exactly the chunks of the text, whose id at position i is
`{report_id}_chunk_{i}`, and whose metadatas repeat the one metadata map,
the three lists being equal in length. -/
theorem indexer_batch_upsert (report_id : String) (text_content : List Char)
    (metadata : Metadata) (store : VectorStore) (h : text_content ≠ []) :
    index_report report_id [] metadata store = store ∧
    index_report_upsert report_id [] metadata = none ∧
    ∃ call, index_report_upsert report_id text_content metadata = some call ∧
      call.documents = chunkStrings text_content ∧
      call.ids.length = call.documents.length ∧
      call.metadatas.length = call.documents.length ∧
      (∀ i, ∀ hi : i < call.ids.length,
          call.ids.get ⟨i, hi⟩ = report_id ++ "_chunk_" ++ toString i) ∧
      ∀ m ∈ call.metadatas, m = metadata := by
  have hne : text_content.isEmpty = false := by
    cases text_content with
    | nil => exact absurd rfl h
    | cons a l => rfl
  refine ⟨rfl, rfl,
    ⟨{ documents := chunkStrings text_content
     , ids := List.map (fun i => report_id ++ "_chunk_" ++ toString i)
         (List.range (chunkStrings text_content).length)
     , metadatas := List.map (fun _ => metadata) (chunkStrings text_content) },
     ?_, rfl, ?_, ?_, ?_, ?_⟩⟩
  · simp [index_report_upsert, hne]
  · simp
  · simp
  · intro i hi
    simp only [List.get_eq_getElem, List.getElem_map, List.getElem_range]
  · intro m hm
    rcases List.mem_map.mp hm with ⟨x, _, hxe⟩
    exact hxe.symm

/-- Witness for C5 at a two-character report text. -/
theorem indexer_batch_upsert_witness :
    index_report "r1" [] sampleMetadataA [] = [] ∧
    index_report_upsert "r1" [] sampleMetadataA = none ∧
    ∃ call, index_report_upsert "r1" (String.toList "ab") sampleMetadataA = some call ∧
      call.documents = chunkStrings (String.toList "ab") ∧
      call.ids.length = call.documents.length ∧
      call.metadatas.length = call.documents.length ∧
      (∀ i, ∀ hi : i < call.ids.length,
          call.ids.get ⟨i, hi⟩ = "r1" ++ "_chunk_" ++ toString i) ∧
      ∀ m ∈ call.metadatas, m = sampleMetadataA :=
  indexer_batch_upsert "r1" (String.toList "ab") sampleMetadataA [] (by decide)

/-- C6: a summarize request from a non-patient returns the rejection
fragment with nothing persisted; the outcome is the same for every
generator, ranker and store (second conjunct), so neither retrieval nor
generation is performed. -/
theorem summarize_requires_patient (gen gen2 : Generator) (rank rank2 : Ranker)
    (store store2 : VectorStore) (class_def_time : Nat) (query : String) (u : User)
    (h : u.user_type ≠ "patient") :
    chat_with_rag gen rank store class_def_time query "summarize" u =
      { result := ChatResult.rejection, saved := none } ∧
    chat_with_rag gen rank store class_def_time query "summarize" u =
      chat_with_rag gen2 rank2 store2 class_def_time query "summarize" u := by
  have key : ∀ (g : Generator) (r : Ranker) (s : VectorStore),
      chat_with_rag g r s class_def_time query "summarize" u =
        { result := ChatResult.rejection, saved := none } := by
    intro g r s
    unfold chat_with_rag
    rw [if_pos rfl, if_pos h]
  exact ⟨key gen rank store, by rw [key gen rank store, key gen2 rank2 store2]⟩

/-- Witness for C6 at a doctor caller, with two different generators,
rankers and stores. -/
theorem summarize_requires_patient_witness :
    chat_with_rag okGen idRanker [sampleChunkA] 7 "summarize my records" "summarize" sampleDoctor =
      { result := ChatResult.rejection, saved := none } ∧
    chat_with_rag okGen idRanker [sampleChunkA] 7 "summarize my records" "summarize" sampleDoctor =
      chat_with_rag failGen idRanker [] 7 "summarize my records" "summarize" sampleDoctor :=
  summarize_requires_patient okGen failGen idRanker idRanker [sampleChunkA] [] 7
    "summarize my records" sampleDoctor (by decide)

/-- C7: a successful ask turn persists the verbatim question as
`user_query`; a successful summarize turn (patient caller) persists the
fixed label, which differs from the internal generic retrieval phrase. -/
theorem saved_query_text (gen : Generator) (rank : Ranker) (store : VectorStore)
    (class_def_time : Nat) (query : String) (u : User)
    (hp : u.user_type = "patient") :
    Option.map ChatMessage.user_query
        (chat_with_rag gen rank store class_def_time query "ask" u).saved = some query ∧
    Option.map ChatMessage.user_query
        (chat_with_rag gen rank store class_def_time query "summarize" u).saved
      = some SUMMARY_SAVED_QUERY ∧
    SUMMARY_SAVED_QUERY = "Request for Medical Record Summary" ∧
    SUMMARY_SAVED_QUERY ≠ SUMMARY_QUERY_TEXT := by
  have hask : ("ask" : String) ≠ "summarize" := by decide
  refine ⟨?_, ?_, rfl, by decide⟩
  · unfold chat_with_rag
    rw [if_neg hask, if_pos rfl]
    rfl
  · unfold chat_with_rag
    rw [if_pos rfl, if_neg (fun hc => hc hp)]
    rfl

/-- Witness for C7 at a patient caller and a concrete question. -/
theorem saved_query_text_witness :
    Option.map ChatMessage.user_query
        (chat_with_rag okGen idRanker [sampleChunkA] 7 "what do my results show" "ask"
          samplePatient).saved
      = some "what do my results show" ∧
    Option.map ChatMessage.user_query
        (chat_with_rag okGen idRanker [sampleChunkA] 7 "what do my results show" "summarize"
          samplePatient).saved
      = some SUMMARY_SAVED_QUERY ∧
    SUMMARY_SAVED_QUERY = "Request for Medical Record Summary" ∧
    SUMMARY_SAVED_QUERY ≠ SUMMARY_QUERY_TEXT :=
  saved_query_text okGen idRanker [sampleChunkA] 7 "what do my results show" samplePatient rfl

/-- C8: the code slip behind the claim. The Pydantic default for
`ChatMessage.timestamp` is evaluated once when `models/schemas.py` is
imported (here `class_def_time = 7`), so two chat turns made at different
times both persist timestamp 7: the stored timestamp is the import-time
constant, not the turn's creation time. -/
theorem chat_timestamp_is_import_time :
    Option.map ChatMessage.timestamp
        (chat_with_rag okGen idRanker [] 7 "first question" "ask" samplePatient).saved
      = some 7 ∧
    Option.map ChatMessage.timestamp
        (chat_with_rag okGen idRanker [] 7 "second question" "ask" samplePatient).saved
      = some 7 :=
  ⟨rfl, rfl⟩

/-- C9: when the owner-scoped summarize retrieval returns no chunks, the
summary path returns the fixed no-reports message; the result is this
constant for every generator, so the generator model is never constructed
or called on such a request. -/
theorem summary_without_reports (gen : Generator) (rank : Ranker)
    (store : VectorStore) (user_email : String)
    (h : queryChunks rank store SUMMARY_QUERY_TEXT user_email 10 = []) :
    get_summary_response gen rank store user_email = NO_REPORTS_MESSAGE := by
  simp [get_summary_response, queryDocuments, h, extractContext]

/-- Witness for C9: a caller with no chunks of their own, although the
store holds another owner's chunk. -/
theorem summary_without_reports_witness :
    get_summary_response okGen idRanker [sampleChunkA] "b@x.com" = NO_REPORTS_MESSAGE :=
  summary_without_reports okGen idRanker [sampleChunkA] "b@x.com" (by decide)

/-- C10: an action value other than "ask" and "summarize" skips both
branches — no retrieval and no generation, since the outcome names neither
the generator, the ranker nor the store — yet still persists a ChatMessage
whose user_query is the submitted query and whose ai_response is the empty
string, rendered as a normal exchange: invalid modes are not rejected. -/
theorem invalid_action_not_rejected (gen : Generator) (rank : Ranker) (store : VectorStore)
    (class_def_time : Nat) (query action : String) (u : User)
    (h1 : action ≠ "summarize") (h2 : action ≠ "ask") :
    chat_with_rag gen rank store class_def_time query action u =
      { result := ChatResult.exchange query "",
        saved := some (mkChatMessage class_def_time u.email query "") } := by
  unfold chat_with_rag
  rw [if_neg h1, if_neg h2]

/-- Witness for C10 at the unsupported action value "translate". -/
theorem invalid_action_not_rejected_witness :
    chat_with_rag okGen idRanker [sampleChunkA] 7 "hello" "translate" samplePatient =
      { result := ChatResult.exchange "hello" "",
        saved := some (mkChatMessage 7 "a@x.com" "hello" "") } :=
  invalid_action_not_rejected okGen idRanker [sampleChunkA] 7 "hello" "translate"
    samplePatient (by decide) (by decide)

end Arogya
